import Mathlib

/-!
# Video controller: list, publish and update

A shallow embedding of `src/controllers/video.controller.js` (`getAllVideos`,
`publishAVideo`, `updateVideoDetails`) together with the parts of the JavaScript
runtime and of the document store that these handlers rely on.

* JavaScript numbers are kept exact: a finite number is a decimal `m × 10^e`,
  there is no rounding to binary64 and no signed zero.  Whether a value is `NaN`
  does not depend on either.
* A handler is a function from the request and the stored collections to an
  `Outcome` (and, for the writing handlers, the collections and the upload log
  after the request).
-/

namespace VideoController

/-! ## JavaScript values -/

/-- A JavaScript number: a finite decimal `m × 10^e`, an infinity, or `NaN`. -/
inductive JsNum
  | fin (m : Int) (e : Int)
  | inf (neg : Bool)
  | nan
deriving DecidableEq, Repr

/-- The values a request field can hold.  A parsed query string gives `undefined`
(key absent), a string, an array of strings (repeated key) or a nested object. -/
inductive JsVal
  | undefined
  | null
  | bool (b : Bool)
  | num (n : JsNum)
  | str (s : String)
  | arr (xs : List String)
  | obj
deriving DecidableEq, Repr

namespace JsNum

/-- Unary minus. -/
def neg : JsNum → JsNum
  | .fin m e => .fin (-m) e
  | .inf b => .inf (!b)
  | .nan => .nan

/-- The sign of a finite mantissa: `true` when negative. -/
def negative (m : Int) : Bool := decide (m < 0)

/-- JavaScript `a - b`. -/
def sub : JsNum → JsNum → JsNum
  | .fin m₁ e₁, .fin m₂ e₂ =>
      let e := min e₁ e₂
      .fin (m₁ * 10 ^ (e₁ - e).toNat - m₂ * 10 ^ (e₂ - e).toNat) e
  | .fin _ _, .inf b => .inf (!b)
  | .inf b, .fin _ _ => .inf b
  | .inf a, .inf b => if a = b then .nan else .inf a
  | _, _ => .nan

/-- JavaScript `a * b`. -/
def mul : JsNum → JsNum → JsNum
  | .fin m₁ e₁, .fin m₂ e₂ => .fin (m₁ * m₂) (e₁ + e₂)
  | .fin m _, .inf b => if m = 0 then .nan else .inf (xor (negative m) b)
  | .inf b, .fin m _ => if m = 0 then .nan else .inf (xor b (negative m))
  | .inf a, .inf b => .inf (xor a b)
  | _, _ => .nan

/-- The integer a number denotes, when it denotes one. -/
def toInt? : JsNum → Option Int
  | .fin m e =>
      if 0 ≤ e then some (m * 10 ^ e.toNat)
      else if m % 10 ^ (-e).toNat = 0 then some (m / 10 ^ (-e).toNat) else none
  | _ => none

/-- Numeric order `a ≤ b`; `NaN` sorts below every number, as in the store. -/
def le : JsNum → JsNum → Bool
  | .nan, _ => true
  | _, .nan => false
  | .inf a, .inf b => a || !b
  | .inf a, .fin _ _ => a
  | .fin _ _, .inf b => !b
  | .fin m₁ e₁, .fin m₂ e₂ =>
      let e := min e₁ e₂
      decide (m₁ * 10 ^ (e₁ - e).toNat ≤ m₂ * 10 ^ (e₂ - e).toNat)

end JsNum

/-! ### `Number(string)`: the StringNumericLiteral grammar -/

/-- WhiteSpace and LineTerminator code points, which `Number` strips from both ends. -/
def isStrWhiteSpace (c : Char) : Bool :=
  let n := c.toNat
  n == 9 || n == 10 || n == 11 || n == 12 || n == 13 || n == 32 || n == 160 || n == 5760 ||
  (8192 ≤ n && n ≤ 8202) || n == 8232 || n == 8233 || n == 8239 || n == 8287 ||
  n == 12288 || n == 65279

/-- The value of one digit character (decimal or hexadecimal). -/
def digitValue (c : Char) : Option Nat :=
  let n := c.toNat
  if 48 ≤ n ∧ n ≤ 57 then some (n - 48)
  else if 97 ≤ n ∧ n ≤ 102 then some (n - 87)
  else if 65 ≤ n ∧ n ≤ 70 then some (n - 55)
  else none

/-- The value of a non-empty run of digits in the given base; `none` when the run is
empty or holds a character that is not a digit of that base. -/
def digitsIn (base : Nat) (cs : List Char) : Option Nat :=
  if cs = [] then none
  else cs.foldl
    (fun acc c =>
      match acc, digitValue c with
      | some n, some d => if d < base then some (n * base + d) else none
      | _, _ => none)
    (some 0)

/-- The value of a run of decimal digits, `0` for the empty run. -/
def decimalValue (cs : List Char) : Nat :=
  cs.foldl (fun n c => n * 10 + (c.toNat - 48)) 0

/-- ExponentPart (optional): `e` or `E`, an optional sign, at least one digit. -/
def exponentPart : List Char → Option Int
  | [] => some 0
  | c :: r =>
      if c = 'e' ∨ c = 'E' then
        match r with
        | '+' :: d => (digitsIn 10 d).map Int.ofNat
        | '-' :: d => (digitsIn 10 d).map (fun n => - Int.ofNat n)
        | d => (digitsIn 10 d).map Int.ofNat
      else none

/-- StrUnsignedDecimalLiteral: `Infinity`, `d.d?e?`, `.de?` or `de?`. -/
def strUnsignedDecimalLiteral (cs : List Char) : JsNum :=
  if cs = "Infinity".toList then .inf false
  else
    let ip := cs.takeWhile Char.isDigit
    let r₁ := cs.dropWhile Char.isDigit
    let fr : List Char × List Char :=
      match r₁ with
      | '.' :: r => (r.takeWhile Char.isDigit, r.dropWhile Char.isDigit)
      | _ => ([], r₁)
    if ip = [] ∧ fr.1 = [] then .nan
    else
      match exponentPart fr.2 with
      | none => .nan
      | some x => .fin (decimalValue (ip ++ fr.1)) (x - fr.1.length)

/-- StrDecimalLiteral: an optional sign before an unsigned decimal literal. -/
def strDecimalLiteral : List Char → JsNum
  | '+' :: r => strUnsignedDecimalLiteral r
  | '-' :: r => (strUnsignedDecimalLiteral r).neg
  | cs => strUnsignedDecimalLiteral cs

/-- A number from an optional natural. -/
def JsNum.ofNat? : Option Nat → JsNum
  | some n => .fin n 0
  | none => .nan

/-- StrNumericLiteral: a hexadecimal, octal or binary integer (no sign), or a
decimal literal. -/
def strNumericLiteral : List Char → JsNum
  | '0' :: p :: ds =>
      if p = 'x' ∨ p = 'X' then JsNum.ofNat? (digitsIn 16 ds)
      else if p = 'o' ∨ p = 'O' then JsNum.ofNat? (digitsIn 8 ds)
      else if p = 'b' ∨ p = 'B' then JsNum.ofNat? (digitsIn 2 ds)
      else strDecimalLiteral ('0' :: p :: ds)
  | cs => strDecimalLiteral cs

/-- The string with white space removed from both ends. -/
def trimWhiteSpace (cs : List Char) : List Char :=
  ((cs.dropWhile isStrWhiteSpace).reverse.dropWhile isStrWhiteSpace).reverse

/-- JavaScript `Number(s)` for a string: `0` for an empty or blank string, the value
of the literal when the trimmed string is a StrNumericLiteral, `NaN` otherwise. -/
def stringToNumber (s : String) : JsNum :=
  let t := trimWhiteSpace s.toList
  if t = [] then .fin 0 0 else strNumericLiteral t

/-- JavaScript `Number(v)` (ToNumber).  An array is first joined with commas, an
object becomes `"[object Object]"`, which is no numeric literal. -/
def JsVal.toNumber : JsVal → JsNum
  | .undefined => .nan
  | .null => .fin 0 0
  | .bool b => if b then .fin 1 0 else .fin 0 0
  | .num n => n
  | .str s => stringToNumber s
  | .arr xs => stringToNumber (",".intercalate xs)
  | .obj => .nan

/-- The global `isNaN(v)`: `Number(v)` is `NaN`. -/
def isNaN (v : JsVal) : Bool :=
  match v.toNumber with
  | .nan => true
  | _ => false

/-- A destructuring default: it applies exactly when the property is `undefined`. -/
def JsVal.orDefault (v d : JsVal) : JsVal :=
  if v = .undefined then d else v

/-! ## The document store -/

/-- A document of the `videos` collection. -/
structure Video where
  id : String
  videoFile : String
  thumbnail : String
  title : String
  description : String
  duration : JsNum
  owner : String
  createdAt : Nat
  updatedAt : Nat
deriving DecidableEq, Repr

/-- A document of the `users` collection; `secret` stands for every stored field
other than the ones named. -/
structure User where
  id : String
  username : String
  email : String
  avatar : String
  secret : String
deriving DecidableEq, Repr

/-- The owner as the list pipeline projects it: `_id`, `username`, `email`, `avatar`. -/
structure OwnerView where
  id : String
  username : String
  email : String
  avatar : String
deriving DecidableEq, Repr

/-- A video as the list pipeline returns it: the document with its `owner` field
replaced by the projected owner, absent when no user has that id. -/
structure VideoOut where
  video : Video
  owner : Option OwnerView
deriving DecidableEq, Repr

/-- The value of a document field as the store compares it. -/
inductive Bson
  | missing
  | num (n : JsNum)
  | str (s : String)
  | oid (s : String)
  | date (t : Nat)
deriving DecidableEq, Repr

/-- Order of strings by code point, which is the order of their UTF-8 bytes. -/
def codeLe : List Char → List Char → Bool
  | [], _ => true
  | _ :: _, [] => false
  | a :: as, b :: bs =>
      if a.toNat < b.toNat then true
      else if b.toNat < a.toNat then false
      else codeLe as bs

/-- The place of a value's type in the store's cross-type order. -/
def Bson.rank : Bson → Nat
  | .missing => 0
  | .num _ => 1
  | .str _ => 2
  | .oid _ => 3
  | .date _ => 4

/-- The store's order on field values: by type first, then by value. -/
def Bson.le : Bson → Bson → Bool
  | .num x, .num y => x.le y
  | .str x, .str y => codeLe x.toList y.toList
  | .oid x, .oid y => codeLe x.toList y.toList
  | .date x, .date y => decide (x ≤ y)
  | a, b => decide (a.rank ≤ b.rank)

/-- The field of a video document with the given name. -/
def Video.field (v : Video) (name : String) : Bson :=
  if name = "_id" then .oid v.id
  else if name = "videoFile" then .str v.videoFile
  else if name = "thumbnail" then .str v.thumbnail
  else if name = "title" then .str v.title
  else if name = "description" then .str v.description
  else if name = "duration" then .num v.duration
  else if name = "owner" then .oid v.owner
  else if name = "createdAt" then .date v.createdAt
  else if name = "updatedAt" then .date v.updatedAt
  else .missing

/-! ### Pipeline stages -/

/-- Case folding used by a caseless match (ASCII letters). -/
def foldCase (c : Char) : Char := c.toLower

/-- The pattern matches, caselessly, at the start of the subject. -/
def startsWithCI : List Char → List Char → Bool
  | [], _ => true
  | _ :: _, [] => false
  | p :: ps, c :: cs => foldCase p == foldCase c && startsWithCI ps cs

/-- The pattern matches, caselessly, somewhere in the subject. -/
def searchCI (p : List Char) : List Char → Bool
  | [] => startsWithCI p []
  | c :: cs => startsWithCI p (c :: cs) || searchCI p cs

/-- The test `{ $regex: pattern, $options: "i" }` on a string field, for a pattern
that has no regular-expression metacharacter: a caseless search for the pattern. -/
def regexTest (pattern subject : String) : Bool :=
  searchCI pattern.toList subject.toList

/-- The `$match` stage of `getAllVideos` (lines 49-54): `$or` of the test on `title`
and the test on `description`. -/
def matchStage (query : String) (v : Video) : Bool :=
  regexTest query v.title || regexTest query v.description

/-- The order `$sort: { [sortBy]: sortType }` puts two documents in: ascending by the
field for `1`, descending for `-1`. -/
def sortLe (sortBy : String) (sortType : Int) (a b : Video) : Bool :=
  if sortType = -1 then Bson.le (b.field sortBy) (a.field sortBy)
  else Bson.le (a.field sortBy) (b.field sortBy)

/-- The `$sort` stage.  The server leaves the order of documents with equal keys
open; here they keep their stored order. -/
def sortStage (sortBy : String) (sortType : Int) (vs : List Video) : List Video :=
  vs.insertionSort (fun a b => sortLe sortBy sortType a b = true)

/-- The `$lookup` on `users` with its `$project`, followed by `$addFields` taking the
first joined user (lines 66-86). -/
def lookupOwner (users : List User) (v : Video) : VideoOut :=
  { video := v
    owner := (users.find? (fun u => u.id == v.owner)).map
      (fun u => { id := u.id, username := u.username, email := u.email, avatar := u.avatar }) }

/-- The argument of `$skip` as the store reads it: a non-negative integer. -/
def skipArg (skip : JsNum) : Option Nat :=
  match skip.toInt? with
  | some k => if 0 ≤ k then some k.toNat else none
  | none => none

/-- The argument of `$limit` as the store reads it: a positive integer. -/
def limitArg (limit : JsVal) : Option Nat :=
  match limit with
  | .num n =>
      match n.toInt? with
      | some k => if 0 < k then some k.toNat else none
      | none => none
  | _ => none

/-- The call `Video.aggregate([...])` of `getAllVideos` (lines 47-87): match, sort,
skip, limit, join.  The server refuses the pipeline when a stage argument is not of
the required kind (`$skip` takes a non-negative integer, `$limit` a positive one), and
the call is then rejected. -/
def aggregate (videos : List Video) (users : List User) (query sortBy : String)
    (sortType : Int) (skip : JsNum) (limit : JsVal) : Except String (List VideoOut) :=
  if sortType ≠ 1 ∧ sortType ≠ -1 then .error "$sort key ordering must be 1 or -1"
  else
    match skipArg skip, limitArg limit with
    | none, _ => .error "invalid argument to $skip stage"
    | some _, none => .error "invalid argument to $limit stage"
    | some k, some n =>
        .ok ((((sortStage sortBy sortType (videos.filter (matchStage query))).drop k).take n).map
          (lookupOwner users))

/-! ## Handlers -/

/-- What a handler does with the request: send a JSON response, throw an `apiError`,
or fail because a call it awaited was rejected. -/
inductive Outcome (α : Type)
  | json (status : Nat) (data : α) (message : String)
  | apiError (status : Nat) (message : String)
  | rejected (reason : String)
deriving DecidableEq, Repr

/-- The properties `getAllVideos` reads from `req.query`. -/
structure ListQuery where
  page : JsVal
  limit : JsVal
  query : JsVal
  sortBy : JsVal
  sortType : JsVal
  userId : JsVal
deriving DecidableEq, Repr

/-- The local variables of `getAllVideos` after line 45. -/
structure Locals where
  page : JsVal
  limit : JsVal
  userId : JsVal
  query : String
  sortBy : String
  sortType : Int
deriving DecidableEq, Repr

/-- Lines 11 and 19-21: `page = 1` by default; `if (!isNaN(page)) page = 1`. -/
def getAllVideos.page (raw : JsVal) : JsVal :=
  let page := raw.orDefault (.num (.fin 1 0))
  if !isNaN page then .num (.fin 1 0) else page

/-- Lines 12 and 23-25: `limit = 10` by default; `if (!isNaN(limit)) limit = 10`. -/
def getAllVideos.limit (raw : JsVal) : JsVal :=
  let limit := raw.orDefault (.num (.fin 10 0))
  if !isNaN limit then .num (.fin 10 0) else limit

/-- Lines 27-29: `if (!isValidObjectId(userId)) userId = null`. -/
def getAllVideos.userId (isValidObjectId : JsVal → Bool) (raw : JsVal) : JsVal :=
  if !isValidObjectId raw then .null else raw

/-- Lines 13 and 31-33: `query = ""` by default; a value that is `!==` to `"title"`,
`"description"` and `""` becomes `""`.  A value that is not a string is `!==` to each
of the three. -/
def getAllVideos.query : JsVal → String
  | .undefined => ""
  | .str s => if s ≠ "title" ∧ s ≠ "description" ∧ s ≠ "" then "" else s
  | _ => ""

/-- Lines 35-37: a value that is `!==` to `"title"`, `"createdAt"` and `"updatedAt"`
becomes `"createdAt"`. -/
def getAllVideos.sortBy : JsVal → String
  | .str s => if s ≠ "title" ∧ s ≠ "createdAt" ∧ s ≠ "updatedAt" then "createdAt" else s
  | _ => "createdAt"

/-- Lines 39-45: `"asc"` gives `1`, `"desc"` gives `-1`, everything else `1`. -/
def getAllVideos.sortType (raw : JsVal) : Int :=
  if raw = .str "asc" then 1
  else if raw = .str "desc" then -1
  else 1

/-- Lines 10-45: the normalization at the head of `getAllVideos`. -/
def getAllVideos.locals (isValidObjectId : JsVal → Bool) (q : ListQuery) : Locals :=
  { page := getAllVideos.page q.page
    limit := getAllVideos.limit q.limit
    userId := getAllVideos.userId isValidObjectId q.userId
    query := getAllVideos.query q.query
    sortBy := getAllVideos.sortBy q.sortBy
    sortType := getAllVideos.sortType q.sortType }

/-- Line 46: `const skip = (page - 1) * limit`. -/
def getAllVideos.skip (page limit : JsVal) : JsNum :=
  (page.toNumber.sub (.fin 1 0)).mul limit.toNumber

/-- The message of the error thrown on line 90. -/
def fetchProblem : String :=
  "There is a problem while fetching videos, please try again later!"

/-- Lines 46-98: compute `skip`, run the aggregation, throw on an empty result,
otherwise answer 200 with the videos. -/
def getAllVideos.run (videos : List Video) (users : List User) (l : Locals) :
    Outcome (List VideoOut) :=
  let skip := getAllVideos.skip l.page l.limit
  match aggregate videos users l.query l.sortBy l.sortType skip l.limit with
  | .error e => .rejected e
  | .ok found =>
      if found.length = 0 then .apiError 500 fetchProblem
      else .json 200 found "Successfully send videos"

/-- The handler `getAllVideos`. -/
def getAllVideos (isValidObjectId : JsVal → Bool) (videos : List Video) (users : List User)
    (q : ListQuery) : Outcome (List VideoOut) :=
  getAllVideos.run videos users (getAllVideos.locals isValidObjectId q)

/-! ### Publishing and updating -/

/-- A file the upload middleware staged on disk. -/
structure StagedFile where
  path : String
deriving DecidableEq, Repr

/-- The object `req.files` of a publish request.  A property is `none` when it is not
an array. -/
structure Files where
  videoFile : Option (List StagedFile)
  thumbnail : Option (List StagedFile)
deriving DecidableEq, Repr

/-- The result of a successful upload: the remote locator and, for a video, the
duration the storage service derived. -/
structure CloudObj where
  url : String
  duration : Option JsNum
deriving DecidableEq, Repr

/-- The state the writing handlers act on: the `videos` collection and the local
paths handed to the storage client so far, oldest first. -/
structure World where
  videos : List Video
  uploads : List String
deriving DecidableEq, Repr

/-- A text field of a multipart body: absent, or a string. -/
abbrev Field := Option String

/-- The test `!field` is false: the field is present and not the empty string. -/
def Field.given : Field → Bool
  | some s => decide (s ≠ "")
  | none => false

/-- The text of a field, empty when the field is absent. -/
def Field.text : Field → String
  | some s => s
  | none => ""

/-- Lines 115-120 and 123-128: the first element when the property is a non-empty
array. -/
def firstStaged : Option (List StagedFile) → Option StagedFile
  | some (f :: _) => some f
  | _ => none

/-- Modelled from the spec: `uploadOnCloudinary` of `utils/cloudinary.js`, which is
not among the sources.  Per §6 it takes a local path and returns the remote locator
(with a duration for a video), or a falsy result on any error.  What the service
answers is the parameter `cloud`, asked with the number of earlier uploads and the
path; the call is recorded in `uploads`. -/
def uploadOnCloudinary (cloud : Nat → String → Option CloudObj) (w : World) (path : String) :
    Option CloudObj × World :=
  (cloud w.uploads.length path, { w with uploads := w.uploads ++ [path] })

/-- The document `publishAVideo` hands to `Video.create` (lines 141-148). -/
structure NewVideo where
  videoFile : String
  thumbnail : String
  title : String
  description : String
  duration : Option JsNum
  owner : String
deriving DecidableEq, Repr

/-- Modelled from the spec: `Video.create` of `models/video.model.js`, which is not
among the sources.  Per §3 a video has a non-empty title and description, a numeric
duration, a unique identifier and system timestamps; a document that lacks one of
these is refused, otherwise the entity is appended to the collection. -/
def Video.create (newId : String) (now : Nat) (w : World) (d : NewVideo) :
    Except String (Video × World) :=
  match d.duration with
  | none => .error "Video validation failed"
  | some dur =>
      if d.title = "" ∨ d.description = "" then .error "Video validation failed"
      else if w.videos.any (fun v => v.id == newId) then .error "duplicate key"
      else
        let video : Video :=
          { id := newId, videoFile := d.videoFile, thumbnail := d.thumbnail, title := d.title,
            description := d.description, duration := dur, owner := d.owner,
            createdAt := now, updatedAt := now }
        .ok (video, { w with videos := w.videos ++ [video] })

/-- A publish request: the body fields, `req.files`, and `req.user._id`. -/
structure PublishRequest where
  title : Field
  description : Field
  files : Option Files
  user : String
deriving DecidableEq, Repr

/-- The handler `publishAVideo` (lines 101-158).  `Video.create` either creates the
entity or rejects, so the test on line 149 is never met. -/
def publishAVideo (cloud : Nat → String → Option CloudObj) (newId : String) (now : Nat)
    (w : World) (req : PublishRequest) : Outcome Video × World :=
  if !req.title.given then (.apiError 400 "Title is missing", w)
  else if !req.description.given then (.apiError 400 "Description is missing", w)
  else
    match req.files with
    | none => (.apiError 400 "Thumbnail and video are missing", w)
    | some files =>
        match firstStaged files.thumbnail, firstStaged files.videoFile with
        | some thumbnailLocalObj, some videoLocalObj =>
            let up₁ := uploadOnCloudinary cloud w videoLocalObj.path
            let up₂ := uploadOnCloudinary cloud up₁.2 thumbnailLocalObj.path
            match up₁.1, up₂.1 with
            | some videoCloudObj, some thumbnailCloudObj =>
                match Video.create newId now up₂.2
                    { videoFile := videoCloudObj.url, thumbnail := thumbnailCloudObj.url,
                      title := req.title.text, description := req.description.text,
                      duration := videoCloudObj.duration, owner := req.user } with
                | .error e => (.rejected e, up₂.2)
                | .ok (video, w₃) => (.json 201 video "Successfully uploaded video.", w₃)
            | _, _ => (.apiError 500 "Failed to upload video or thumbnail to Cloudinary", up₂.2)
        | _, _ => (.apiError 400 "Thumbnail or video is missing", w)

/-- The preconditions of a publish request, in the order they are checked. -/
inductive Unmet
  | title
  | description
  | media
  | mediaPair
deriving DecidableEq, Repr

/-- The 400 message that reports an unmet precondition. -/
def Unmet.message : Unmet → String
  | .title => "Title is missing"
  | .description => "Description is missing"
  | .media => "Thumbnail and video are missing"
  | .mediaPair => "Thumbnail or video is missing"

/-- Following the specification (§4.3): the first unmet precondition of a publish
request in the order title, description, files present, video/thumbnail pair; `none`
when all four are met. -/
def PublishRequest.firstUnmet (req : PublishRequest) : Option Unmet :=
  if req.title = none ∨ req.title = some "" then some .title
  else if req.description = none ∨ req.description = some "" then some .description
  else
    match req.files with
    | none => some .media
    | some files =>
        if firstStaged files.videoFile = none ∨ firstStaged files.thumbnail = none then
          some .mediaPair
        else none

/-- The fields `updateVideoDetails` passes to the store (lines 227-231). -/
structure UpdatableFields where
  title : String
  description : String
  thumbnail : String
deriving DecidableEq, Repr

/-- A string the store can cast to an identifier: 24 hexadecimal digits. -/
def isObjectIdString (s : String) : Bool :=
  s.toList.length == 24 && s.toList.all (fun c => (digitValue c).isSome)

/-- The form in which an identifier is stored and compared: its hexadecimal digits
in lower case. -/
def canonicalId (s : String) : String :=
  String.mk (s.toList.map Char.toLower)

/-- The document after an update at time `now`: the given fields are set, and so is
the system-maintained `updatedAt`. -/
def Video.apply (v : Video) (now : Nat) (u : UpdatableFields) : Video :=
  { v with title := u.title, description := u.description, thumbnail := u.thumbnail,
           updatedAt := now }

/-- The collection with the update applied to the first document that has the id. -/
def updateFirst (id : String) (now : Nat) (u : UpdatableFields) : List Video → List Video
  | [] => []
  | v :: vs => if v.id = id then v.apply now u :: vs else v :: updateFirst id now u vs

/-- Modelled from the spec: the `Video` model of `models/video.model.js`, which is
not among the sources, behind the call `Video.findByIdAndUpdate(videoId,
updatableFields)` of line 232.  The call is rejected (a cast error) when `videoId`
is not a string of 24 hexadecimal digits.  Otherwise the given fields are set on the
document with that identifier and, `updatedAt` being system-maintained (§3), its
`updatedAt` is set to the time of the update; the call returns the document as it
was before the update (no `new: true` option is passed), or `null` when no document
has the identifier. -/
def Video.findByIdAndUpdate (now : Nat) (w : World) (videoId : String) (u : UpdatableFields) :
    Except String (Option Video × World) :=
  if !isObjectIdString videoId then .error "Cast to ObjectId failed"
  else
    match w.videos.find? (fun v => v.id == canonicalId videoId) with
    | none => .ok (none, w)
    | some old =>
        .ok (some old, { w with videos := updateFirst (canonicalId videoId) now u w.videos })

/-- An update request: `req.params.videoId`, the body fields, and `req.file`. -/
structure UpdateRequest where
  videoId : String
  title : Field
  description : Field
  file : Option StagedFile
deriving DecidableEq, Repr

/-- The handler `updateVideoDetails` (lines 209-242), run at time `now`. -/
def updateVideoDetails (cloud : Nat → String → Option CloudObj) (now : Nat) (w : World)
    (req : UpdateRequest) : Outcome Video × World :=
  match req.file with
  | none => (.apiError 400 "thumbnail is missing", w)
  | some thumbnailLocalObj =>
      if !req.title.given || !req.description.given then
        (.apiError 400 "Some fields are missing", w)
      else
        let up := uploadOnCloudinary cloud w thumbnailLocalObj.path
        match up.1 with
        | none => (.apiError 500 "Failed to upload thumbnail to Cloudinary", up.2)
        | some thumbnailCloudObj =>
            let updatableFields : UpdatableFields :=
              { title := req.title.text, description := req.description.text,
                thumbnail := thumbnailCloudObj.url }
            match Video.findByIdAndUpdate now up.2 req.videoId updatableFields with
            | .error e => (.rejected e, up.2)
            | .ok (none, w₂) =>
                (.apiError 404
                  "There is a problem while updating the video, please try again later!", w₂)
            | .ok (some video, w₂) => (.json 200 video "Successfully updated video", w₂)

/-- Following the specification (§4.2): the text occurs, case-insensitively, as a
substring of the subject: some run of consecutive characters of the subject equals
the text once both are case-folded. -/
def occursCI (text subject : String) : Prop :=
  ∃ pre mid post : List Char,
    subject.toList = pre ++ mid ++ post ∧ mid.map foldCase = text.toList.map foldCase

/-! ### Sample data -/

/-- A sample identifier: the number `i` written with 24 digits. -/
def sampleId (i : Nat) : String :=
  String.mk (List.replicate (24 - (Nat.toDigits 10 i).length) '0' ++ Nat.toDigits 10 i)

/-- A sample video, created at time `i + 1`. -/
def sampleVideo (i : Nat) : Video :=
  { id := sampleId i, videoFile := "https://cdn/v.mp4", thumbnail := "https://cdn/t.png",
    title := "Clip", description := "A clip", duration := .fin 125 (-1), owner := "u1",
    createdAt := i + 1, updatedAt := i + 1 }

/-- Twenty-five sample videos in ascending order of `createdAt`. -/
def catalog25 : List Video := (List.range 25).map sampleVideo

/-- The list request with every parameter absent. -/
def noParams : ListQuery :=
  ⟨.undefined, .undefined, .undefined, .undefined, .undefined, .undefined⟩

/-! ## Properties -/

/-! ### JavaScript numbers -/

theorem toNumber_of_isNaN {v : JsVal} (h : isNaN v = true) : v.toNumber = .nan := by
  unfold isNaN at h
  split at h
  · assumption
  · exact absurd h (by simp)

theorem isNaN_one : isNaN (.num (.fin 1 0)) = false := rfl

theorem isNaN_ten : isNaN (.num (.fin 10 0)) = false := rfl

/-! ### The head of `getAllVideos` -/

/-- A `page` that `Number` can read, or an absent one, becomes the number 1. -/
theorem getAllVideos_page_numeric {raw : JsVal}
    (h : isNaN (raw.orDefault (.num (.fin 1 0))) = false) :
    getAllVideos.page raw = .num (.fin 1 0) := by
  simp [getAllVideos.page, h]

/-- A `limit` that `Number` can read, or an absent one, becomes the number 10. -/
theorem getAllVideos_limit_numeric {raw : JsVal}
    (h : isNaN (raw.orDefault (.num (.fin 10 0))) = false) :
    getAllVideos.limit raw = .num (.fin 10 0) := by
  simp [getAllVideos.limit, h]

/-- The `skip` of line 46 is `0` or `NaN` for every request: never a negative
number, and never a positive one either. -/
theorem getAllVideos_skip_values (valid : JsVal → Bool) (q : ListQuery) :
    getAllVideos.skip (getAllVideos.locals valid q).page (getAllVideos.locals valid q).limit
        = .fin 0 0 ∨
    getAllVideos.skip (getAllVideos.locals valid q).page (getAllVideos.locals valid q).limit
        = .nan := by
  simp only [getAllVideos.locals, getAllVideos.skip]
  cases hp : isNaN (q.page.orDefault (.num (.fin 1 0)))
  · rw [getAllVideos_page_numeric hp]
    cases hl : isNaN (q.limit.orDefault (.num (.fin 10 0)))
    · rw [getAllVideos_limit_numeric hl]
      left
      rfl
    · right
      have : getAllVideos.limit q.limit = q.limit.orDefault (.num (.fin 10 0)) := by
        simp [getAllVideos.limit, hl]
      rw [this, toNumber_of_isNaN hl]
      rfl
  · right
    have : getAllVideos.page q.page = q.page.orDefault (.num (.fin 1 0)) := by
      simp [getAllVideos.page, hp]
    rw [this, toNumber_of_isNaN hp]
    rfl

/-- C1, the code at a non-numeric input: with `page=abc` and `limit=ten` the head of
`getAllVideos` keeps both strings (they are not replaced by 1 and 10), and the
`skip` of line 46 is `NaN`. -/
theorem getAllVideos_nonNumeric_kept (valid : JsVal → Bool) :
    (getAllVideos.locals valid
        ⟨.str "abc", .str "ten", .undefined, .undefined, .undefined, .undefined⟩).page
      = .str "abc" ∧
    (getAllVideos.locals valid
        ⟨.str "abc", .str "ten", .undefined, .undefined, .undefined, .undefined⟩).limit
      = .str "ten" ∧
    getAllVideos.skip (.str "abc") (.str "ten") = .nan := by
  refine ⟨?_, ?_, ?_⟩
  · show getAllVideos.page (.str "abc") = .str "abc"
    decide
  · show getAllVideos.limit (.str "ten") = .str "ten"
    decide
  · decide

/-- C9: the sort key after the head of `getAllVideos` is one of `title`, `createdAt`,
`updatedAt`; it is the raw `sortBy` when that is one of the three and `createdAt`
otherwise; the direction is `-1` (descending) exactly when the raw `sortType` is
`"desc"` and `1` (ascending) for every other value; and the `$sort` stage orders by
that key in that direction. -/
theorem getAllVideos_sort_normalized (valid : JsVal → Bool) (q : ListQuery) :
    (getAllVideos.locals valid q).sortBy ∈ ["title", "createdAt", "updatedAt"] ∧
    JsVal.str (getAllVideos.locals valid q).sortBy =
      (if q.sortBy = .str "title" ∨ q.sortBy = .str "createdAt" ∨ q.sortBy = .str "updatedAt"
        then q.sortBy else .str "createdAt") ∧
    (getAllVideos.locals valid q).sortType = (if q.sortType = .str "desc" then -1 else 1) ∧
    (∀ a b : Video,
      sortLe (getAllVideos.locals valid q).sortBy (getAllVideos.locals valid q).sortType a b =
        if q.sortType = .str "desc" then
          Bson.le (b.field (getAllVideos.locals valid q).sortBy)
            (a.field (getAllVideos.locals valid q).sortBy)
        else
          Bson.le (a.field (getAllVideos.locals valid q).sortBy)
            (b.field (getAllVideos.locals valid q).sortBy)) := by
  have hdir : getAllVideos.sortType q.sortType = (if q.sortType = .str "desc" then -1 else 1) := by
    unfold getAllVideos.sortType
    by_cases h₁ : q.sortType = .str "asc"
    · simp [h₁]
    · simp [h₁]
  refine ⟨?_, ?_, hdir, ?_⟩
  · show getAllVideos.sortBy q.sortBy ∈ _
    cases hq : q.sortBy <;> simp [getAllVideos.sortBy]
    rename_i s
    by_cases h₁ : s = "title"
    · simp [h₁]
    · by_cases h₂ : s = "createdAt"
      · simp [h₂]
      · by_cases h₃ : s = "updatedAt"
        · simp [h₃]
        · simp [h₁, h₂, h₃]
  · show JsVal.str (getAllVideos.sortBy q.sortBy) = _
    cases hq : q.sortBy <;> simp [getAllVideos.sortBy]
    rename_i s
    by_cases h₁ : s = "title"
    · simp [h₁]
    · by_cases h₂ : s = "createdAt"
      · simp [h₂]
      · by_cases h₃ : s = "updatedAt"
        · simp [h₃]
        · simp [h₁, h₂, h₃]
  · intro a b
    show sortLe _ (getAllVideos.sortType q.sortType) a b = _
    rw [hdir]
    by_cases hd : q.sortType = .str "desc"
    · simp [sortLe, hd]
    · simp [sortLe, hd]

/-! ### The `$match` stage -/

theorem startsWithCI_iff (p s : List Char) :
    startsWithCI p s = true ↔
      ∃ mid post : List Char, s = mid ++ post ∧ mid.map foldCase = p.map foldCase := by
  induction p generalizing s with
  | nil => exact ⟨fun _ => ⟨[], s, rfl, rfl⟩, fun _ => rfl⟩
  | cons a ps ih =>
    cases s with
    | nil =>
      constructor
      · intro h
        exact absurd h (by simp [startsWithCI])
      · rintro ⟨mid, post, h, hm⟩
        have hmid : mid = [] := (List.append_eq_nil.mp h.symm).1
        subst hmid
        simp at hm
    | cons c cs =>
      simp only [startsWithCI, Bool.and_eq_true, beq_iff_eq, ih]
      constructor
      · rintro ⟨hac, mid, post, rfl, hm⟩
        exact ⟨c :: mid, post, rfl, by simp [hm, hac]⟩
      · rintro ⟨mid, post, h, hm⟩
        cases mid with
        | nil => simp at hm
        | cons m ms =>
          simp only [List.cons_append, List.cons.injEq] at h
          simp only [List.map_cons, List.cons.injEq] at hm
          obtain ⟨rfl, rfl⟩ := h
          exact ⟨hm.1.symm, ms, post, rfl, hm.2⟩

theorem searchCI_iff (p s : List Char) :
    searchCI p s = true ↔
      ∃ pre mid post : List Char, s = pre ++ mid ++ post ∧ mid.map foldCase = p.map foldCase := by
  induction s with
  | nil =>
    simp only [searchCI, startsWithCI_iff]
    constructor
    · rintro ⟨mid, post, h, hm⟩
      exact ⟨[], mid, post, by simpa using h, hm⟩
    · rintro ⟨pre, mid, post, h, hm⟩
      have h' := List.append_eq_nil.mp h.symm
      have h'' := List.append_eq_nil.mp h'.1
      exact ⟨mid, post, by simp [h''.2, h'.2], hm⟩
  | cons c cs ih =>
    simp only [searchCI, Bool.or_eq_true, startsWithCI_iff, ih]
    constructor
    · rintro (⟨mid, post, h, hm⟩ | ⟨pre, mid, post, h, hm⟩)
      · exact ⟨[], mid, post, by simpa using h, hm⟩
      · exact ⟨c :: pre, mid, post, by simp [h], hm⟩
    · rintro ⟨pre, mid, post, h, hm⟩
      cases pre with
      | nil => exact Or.inl ⟨mid, post, by simpa using h, hm⟩
      | cons x xs =>
        simp only [List.cons_append, List.cons.injEq] at h
        exact Or.inr ⟨xs, mid, post, by simpa using h.2, hm⟩

theorem regexTest_iff (pattern subject : String) :
    regexTest pattern subject = true ↔ occursCI pattern subject := by
  unfold regexTest occursCI
  exact searchCI_iff _ _

theorem regexTest_empty (subject : String) : regexTest "" subject = true := by
  rw [regexTest_iff]
  exact ⟨[], [], subject.toList, rfl, rfl⟩

/-- C8: a video passes the `$match` stage exactly when the normalized filter is empty
or occurs, case-insensitively, as a substring of its title or of its description;
the normalized filter is one of `""`, `"title"`, `"description"`, and every raw
`query` other than `"title"` and `"description"` normalizes to `""`, under which
every video passes. -/
theorem getAllVideos_match_iff (valid : JsVal → Bool) (q : ListQuery) (v : Video) :
    (matchStage (getAllVideos.locals valid q).query v = true ↔
      ((getAllVideos.locals valid q).query = "" ∨
        occursCI (getAllVideos.locals valid q).query v.title ∨
        occursCI (getAllVideos.locals valid q).query v.description)) ∧
    (getAllVideos.locals valid q).query ∈ ["", "title", "description"] ∧
    (q.query = .str "title" ∨ q.query = .str "description" ∨
      ((getAllVideos.locals valid q).query = "" ∧
        ∀ w : Video, matchStage (getAllVideos.locals valid q).query w = true)) := by
  refine ⟨?_, ?_, ?_⟩
  · simp only [matchStage, Bool.or_eq_true, regexTest_iff]
    constructor
    · intro h
      exact Or.inr h
    · rintro (h | h)
      · rw [h]
        exact Or.inl ((regexTest_iff _ _).mp (regexTest_empty _))
      · exact h
  · show getAllVideos.query q.query ∈ _
    cases hq : q.query <;> simp [getAllVideos.query]
    rename_i s
    by_cases h₁ : s = "title"
    · simp [h₁]
    · by_cases h₂ : s = "description"
      · simp [h₂]
      · by_cases h₃ : s = ""
        · simp [h₃]
        · simp [h₁, h₂, h₃]
  · by_cases h₁ : q.query = .str "title"
    · exact Or.inl h₁
    · by_cases h₂ : q.query = .str "description"
      · exact Or.inr (Or.inl h₂)
      · right
        right
        have hq : getAllVideos.query q.query = "" := by
          cases hq : q.query with
          | str s =>
            have h₁' : s ≠ "title" := fun h => h₁ (by rw [hq, h])
            have h₂' : s ≠ "description" := fun h => h₂ (by rw [hq, h])
            by_cases h₃ : s = ""
            · simp [getAllVideos.query, h₃]
            · simp [getAllVideos.query, h₁', h₂', h₃]
          | _ => rfl
        refine ⟨hq, fun w => ?_⟩
        show matchStage (getAllVideos.query q.query) w = true
        rw [hq]
        simp [matchStage, regexTest_empty]

/-! ### The owner filter -/

/-- C10: two list requests that differ only in `userId` have the same outcome on
every catalog, whatever the identifier check says about either value, and the
outcome does not depend on the normalized `userId`: no stage of the aggregation
reads it. -/
theorem getAllVideos_userId_ignored (valid₁ valid₂ : JsVal → Bool) (videos : List Video)
    (users : List User) (q : ListQuery) (u₁ u₂ : JsVal) :
    getAllVideos valid₁ videos users { q with userId := u₁ } =
      getAllVideos valid₂ videos users { q with userId := u₂ } ∧
    (∀ (l : Locals) (x : JsVal),
      getAllVideos.run videos users { l with userId := x } = getAllVideos.run videos users l) :=
  ⟨rfl, fun _ _ => rfl⟩

/-! ### The `$sort` stage -/

theorem codeLe_total (a b : List Char) : codeLe a b = true ∨ codeLe b a = true := by
  induction a generalizing b with
  | nil => exact Or.inl (by cases b <;> rfl)
  | cons x xs ih =>
    cases b with
    | nil => exact Or.inr rfl
    | cons y ys =>
      simp only [codeLe]
      by_cases h₁ : x.toNat < y.toNat
      · simp [h₁]
      · by_cases h₂ : y.toNat < x.toNat
        · simp [h₂]
        · simpa [h₁, h₂] using ih ys

theorem codeLe_trans (a b c : List Char) (hab : codeLe a b = true) (hbc : codeLe b c = true) :
    codeLe a c = true := by
  induction a generalizing b c with
  | nil => cases c <;> rfl
  | cons x xs ih =>
    cases b with
    | nil => exact absurd hab (by simp [codeLe])
    | cons y ys =>
      cases c with
      | nil => exact absurd hbc (by simp [codeLe])
      | cons z zs =>
        simp only [codeLe] at hab hbc ⊢
        by_cases h₁ : x.toNat < y.toNat
        · by_cases h₂ : y.toNat < z.toNat
          · have : x.toNat < z.toNat := by omega
            simp [this]
          · by_cases h₃ : z.toNat < y.toNat
            · simp [h₂, h₃] at hbc
            · have : x.toNat < z.toNat := by omega
              simp [this]
        · by_cases h₁' : y.toNat < x.toNat
          · simp [h₁, h₁'] at hab
          · simp only [h₁, h₁', if_false] at hab
            by_cases h₂ : y.toNat < z.toNat
            · have : x.toNat < z.toNat := by omega
              simp [this]
            · by_cases h₃ : z.toNat < y.toNat
              · simp [h₂, h₃] at hbc
              · simp only [h₂, h₃, if_false] at hbc
                have e₁ : ¬ x.toNat < z.toNat := by omega
                have e₂ : ¬ z.toNat < x.toNat := by omega
                simp only [e₁, e₂, if_false]
                exact ih ys zs hab hbc

theorem field_title (v : Video) : v.field "title" = .str v.title := by
  simp [Video.field]

theorem field_createdAt (v : Video) : v.field "createdAt" = .date v.createdAt := by
  simp [Video.field]

theorem field_updatedAt (v : Video) : v.field "updatedAt" = .date v.updatedAt := by
  simp [Video.field]

theorem fieldLe_total {k : String} (hk : k ∈ ["title", "createdAt", "updatedAt"])
    (a b : Video) : Bson.le (a.field k) (b.field k) = true ∨ Bson.le (b.field k) (a.field k) = true := by
  simp only [List.mem_cons, List.mem_singleton, List.not_mem_nil, or_false] at hk
  rcases hk with rfl | rfl | rfl
  · simp only [field_title, Bson.le]
    exact codeLe_total _ _
  · simp only [field_createdAt, Bson.le, decide_eq_true_eq]
    exact Nat.le_total _ _
  · simp only [field_updatedAt, Bson.le, decide_eq_true_eq]
    exact Nat.le_total _ _

theorem fieldLe_trans {k : String} (hk : k ∈ ["title", "createdAt", "updatedAt"])
    (a b c : Video) (hab : Bson.le (a.field k) (b.field k) = true)
    (hbc : Bson.le (b.field k) (c.field k) = true) : Bson.le (a.field k) (c.field k) = true := by
  simp only [List.mem_cons, List.mem_singleton, List.not_mem_nil, or_false] at hk
  rcases hk with rfl | rfl | rfl
  · simp only [field_title, Bson.le] at hab hbc ⊢
    exact codeLe_trans _ _ _ hab hbc
  · simp only [field_createdAt, Bson.le, decide_eq_true_eq] at hab hbc ⊢
    exact Nat.le_trans hab hbc
  · simp only [field_updatedAt, Bson.le, decide_eq_true_eq] at hab hbc ⊢
    exact Nat.le_trans hab hbc

theorem sortLe_total {k : String} (hk : k ∈ ["title", "createdAt", "updatedAt"]) (d : Int)
    (a b : Video) : sortLe k d a b = true ∨ sortLe k d b a = true := by
  unfold sortLe
  by_cases hd : d = -1
  · simp only [hd, if_true]
    exact fieldLe_total hk b a
  · simp only [hd, if_false]
    exact fieldLe_total hk a b

theorem sortLe_trans {k : String} (hk : k ∈ ["title", "createdAt", "updatedAt"]) (d : Int)
    (a b c : Video) (hab : sortLe k d a b = true) (hbc : sortLe k d b c = true) :
    sortLe k d a c = true := by
  unfold sortLe at hab hbc ⊢
  by_cases hd : d = -1
  · simp only [hd, if_true] at hab hbc ⊢
    exact fieldLe_trans hk c b a hbc hab
  · simp only [hd, if_false] at hab hbc ⊢
    exact fieldLe_trans hk a b c hab hbc

/-- The `$sort` stage returns its input rearranged. -/
theorem sortStage_perm (k : String) (d : Int) (vs : List Video) :
    (sortStage k d vs).Perm vs :=
  List.perm_insertionSort _ vs

/-- On one of the three keys the `$sort` stage returns its input in order. -/
theorem sortStage_sorted {k : String} (hk : k ∈ ["title", "createdAt", "updatedAt"]) (d : Int)
    (vs : List Video) : (sortStage k d vs).Sorted (fun a b => sortLe k d a b = true) := by
  haveI : IsTotal Video (fun a b => sortLe k d a b = true) := ⟨sortLe_total hk d⟩
  haveI : IsTrans Video (fun a b => sortLe k d a b = true) := ⟨sortLe_trans hk d⟩
  exact List.sorted_insertionSort _ vs

/-! ### The window and the response -/

theorem sortType_valid (raw : JsVal) :
    getAllVideos.sortType raw = 1 ∨ getAllVideos.sortType raw = -1 := by
  unfold getAllVideos.sortType
  by_cases h₁ : raw = .str "asc"
  · simp [h₁]
  · by_cases h₂ : raw = .str "desc"
    · simp [h₂]
    · simp [h₁, h₂]

/-- With the numbers `p ≥ 1` and `n` as `page` and `limit`, line 46 gives the store
the skip `(p - 1) * n`. -/
theorem skipArg_skip (p n : Nat) (hp : 1 ≤ p) :
    skipArg (getAllVideos.skip (.num (.fin p 0)) (.num (.fin n 0))) = some ((p - 1) * n) := by
  have h : ((p : Int) - 1) * (n : Int) = (((p - 1) * n : Nat) : Int) := by
    push_cast [Nat.cast_sub hp]
    ring
  simp only [getAllVideos.skip, JsVal.toNumber, JsNum.sub, JsNum.mul, JsNum.toInt?, skipArg]
  simp only [min_self, sub_self, Int.toNat_zero, pow_zero, mul_one, add_zero, le_refl, if_true, h]
  have h0 : (0 : Int) ≤ (((p - 1) * n : Nat) : Int) := Int.ofNat_nonneg _
  simp only [h0, if_true, Int.toNat_ofNat]

theorem limitArg_num (n : Nat) (hn : 1 ≤ n) : limitArg (.num (.fin n 0)) = some n := by
  have h : (0 : Int) < (n : Int) := by omega
  simp [limitArg, JsNum.toInt?, h]

/-- What `getAllVideos.run` answers, given that the store accepts the stage
arguments with skip `k` and limit `n`. -/
theorem run_of_args (videos : List Video) (users : List User) (l : Locals) (k n : Nat)
    (hd : l.sortType = 1 ∨ l.sortType = -1)
    (hk : skipArg (getAllVideos.skip l.page l.limit) = some k) (hn : limitArg l.limit = some n) :
    getAllVideos.run videos users l =
      if ((sortStage l.sortBy l.sortType (videos.filter (matchStage l.query))).drop k).take n = []
      then .apiError 500 fetchProblem
      else .json 200
        ((((sortStage l.sortBy l.sortType (videos.filter (matchStage l.query))).drop k).take n).map
          (lookupOwner users)) "Successfully send videos" := by
  have hd' : ¬ (l.sortType ≠ 1 ∧ l.sortType ≠ -1) := by
    rcases hd with h | h <;> simp [h]
  simp only [getAllVideos.run, aggregate, hd', if_false, hk, hn, List.length_map]
  by_cases hw :
      ((sortStage l.sortBy l.sortType (videos.filter (matchStage l.query))).drop k).take n = []
  · simp [hw]
  · have : (((sortStage l.sortBy l.sortType (videos.filter (matchStage l.query))).drop k).take
        n).length ≠ 0 := fun h => hw (List.length_eq_zero.mp h)
    simp only [hw, if_false, this]

/-- A 200 response of the list handler never carries an empty sequence. -/
theorem run_json_nonempty (videos : List Video) (users : List User) (l : Locals)
    (st : Nat) (data : List VideoOut) (m : String)
    (h : getAllVideos.run videos users l = .json st data m) : st = 200 ∧ data ≠ [] := by
  unfold getAllVideos.run at h
  simp only at h
  split at h
  · exact absurd h (by simp)
  · rename_i found _
    by_cases hf : found.length = 0
    · simp [hf] at h
    · simp only [hf, if_false, Outcome.json.injEq] at h
      refine ⟨h.1.symm, ?_⟩
      rw [← h.2.1]
      exact fun h0 => hf (by simp [h0])

/-- C3, as the claim states it, fails: on an empty catalog the list handler throws
the 500 error; it does not answer 200 with an empty sequence. -/
theorem getAllVideos_empty_catalog_raises :
    getAllVideos (fun _ => false) [] [] noParams = .apiError 500 fetchProblem ∧
    getAllVideos (fun _ => false) [] [] noParams ≠ .json 200 [] "Successfully send videos" :=
  ⟨by decide, by decide⟩

/-- C3, as the code has it: when `page` and `limit` are numeric or absent and no video
passes the filter (an empty catalog included), `getAllVideos` throws the 500 error
"There is a problem while fetching videos"; whatever the normalized parameters, it
throws that error whenever the aggregation returns an empty sequence (no match, or a
window past the last match), and a response it sends has status 200 and a non-empty
sequence. -/
theorem getAllVideos_noMatch_raises (valid : JsVal → Bool) (videos : List Video)
    (users : List User) (q : ListQuery)
    (hp : isNaN (q.page.orDefault (.num (.fin 1 0))) = false)
    (hl : isNaN (q.limit.orDefault (.num (.fin 10 0))) = false)
    (hno : ∀ v ∈ videos, matchStage (getAllVideos.locals valid q).query v = false) :
    getAllVideos valid videos users q = .apiError 500 fetchProblem ∧
    (∀ l : Locals,
      aggregate videos users l.query l.sortBy l.sortType (getAllVideos.skip l.page l.limit)
          l.limit = .ok [] →
        getAllVideos.run videos users l = .apiError 500 fetchProblem) ∧
    ∀ (l : Locals) (st : Nat) (data : List VideoOut) (m : String),
      getAllVideos.run videos users l = .json st data m → st = 200 ∧ data ≠ [] := by
  refine ⟨?_, ?_, run_json_nonempty videos users⟩
  rotate_left
  · intro l h
    simp [getAllVideos.run, h]
  have hk : skipArg (getAllVideos.skip (getAllVideos.locals valid q).page
      (getAllVideos.locals valid q).limit) = some 0 := by
    show skipArg (getAllVideos.skip (getAllVideos.page q.page) (getAllVideos.limit q.limit)) = _
    rw [getAllVideos_page_numeric hp, getAllVideos_limit_numeric hl]
    rfl
  have hn : limitArg (getAllVideos.locals valid q).limit = some 10 := by
    show limitArg (getAllVideos.limit q.limit) = _
    rw [getAllVideos_limit_numeric hl]
    rfl
  have hfil : videos.filter (matchStage (getAllVideos.locals valid q).query) = [] := by
    rw [List.filter_eq_nil_iff]
    intro v hv
    simp [hno v hv]
  unfold getAllVideos
  rw [run_of_args videos users _ 0 10 (sortType_valid q.sortType) hk hn, hfil]
  simp [sortStage]

/-- The amended C3 at a request for page 3 of 5 with the filter `title`, on a catalog
in which no title or description contains that word. -/
theorem getAllVideos_noMatch_raises_witness :
    isNaN ((JsVal.str "3").orDefault (.num (.fin 1 0))) = false ∧
    isNaN ((JsVal.str "5").orDefault (.num (.fin 10 0))) = false ∧
    (∀ v ∈ catalog25, matchStage "title" v = false) ∧
    getAllVideos (fun _ => false) catalog25 []
        ⟨.str "3", .str "5", .str "title", .undefined, .undefined, .undefined⟩
      = .apiError 500 fetchProblem :=
  ⟨by decide, by decide, by decide,
    (getAllVideos_noMatch_raises (fun _ => false) catalog25 []
      ⟨.str "3", .str "5", .str "title", .undefined, .undefined, .undefined⟩
      (by decide) (by decide) (by decide)).1⟩

/-- C2, as the claim states it, fails: with 25 matching videos in ascending order of
`createdAt`, `page=2` and `limit=10` return the 1st through 10th videos, not the 11th
through 20th; and with `page=1`, `limit=10` on an empty catalog the handler throws
the 500 error instead of returning the (empty) window. -/
theorem getAllVideos_page2_first_ten :
    getAllVideos (fun _ => false) catalog25 []
        ⟨.str "2", .str "10", .undefined, .str "createdAt", .str "asc", .undefined⟩
      = .json 200 ((catalog25.take 10).map (lookupOwner [])) "Successfully send videos" ∧
    getAllVideos (fun _ => false) catalog25 []
        ⟨.str "2", .str "10", .undefined, .str "createdAt", .str "asc", .undefined⟩
      ≠ .json 200 (((catalog25.drop 10).take 10).map (lookupOwner []))
          "Successfully send videos" ∧
    getAllVideos (fun _ => false) [] []
        ⟨.str "1", .str "10", .undefined, .str "createdAt", .str "asc", .undefined⟩
      = .apiError 500 fetchProblem :=
  ⟨by decide, by decide, by decide⟩

/-- C2, as the code has it from line 46 on: when `page` and `limit` hold the positive
integers `p` and `n` at line 46, the sort key is one of the three and the direction
is 1 or -1, the aggregation sorts the matching videos (a rearrangement of them, in
order of the key), drops the first `(p - 1) * n` and keeps at most `n` of the rest,
so that the `i`-th video of the window is the `((p - 1) * n + i)`-th of the sorted
sequence; the handler answers 200 with that window when it is not empty and throws
the 500 error when it is.  The product `p * n` is taken below `2 ^ 53`, where
JavaScript arithmetic on integers is exact. -/
theorem getAllVideos_window (videos : List Video) (users : List User) (p n : Nat)
    (uid : JsVal) (query sortBy : String) (sortType : Int)
    (hp : 1 ≤ p) (hn : 1 ≤ n) (_hsafe : p * n < 2 ^ 53)
    (hk : sortBy ∈ ["title", "createdAt", "updatedAt"])
    (hd : sortType = 1 ∨ sortType = -1) :
    let sorted := sortStage sortBy sortType (videos.filter (matchStage query))
    let window := (sorted.drop ((p - 1) * n)).take n
    sorted.Perm (videos.filter (matchStage query)) ∧
    sorted.Sorted (fun a b => sortLe sortBy sortType a b = true) ∧
    (∀ i, i < n → window[i]? = sorted[(p - 1) * n + i]?) ∧
    window.length = min n (sorted.length - (p - 1) * n) ∧
    getAllVideos.run videos users ⟨.num (.fin p 0), .num (.fin n 0), uid, query, sortBy, sortType⟩ =
      (if window = [] then .apiError 500 fetchProblem
        else .json 200 (window.map (lookupOwner users)) "Successfully send videos") := by
  intro sorted window
  refine ⟨sortStage_perm _ _ _, sortStage_sorted hk _ _, ?_, ?_, ?_⟩
  · intro i hi
    show ((sorted.drop ((p - 1) * n)).take n)[i]? = _
    rw [List.getElem?_take_of_lt hi, List.getElem?_drop]
  · show ((sorted.drop ((p - 1) * n)).take n).length = _
    simp
  · exact run_of_args videos users
      ⟨.num (.fin p 0), .num (.fin n 0), uid, query, sortBy, sortType⟩ ((p - 1) * n) n hd
      (skipArg_skip p n hp) (limitArg_num n hn)

/-- The amended C2 on the 25 sample videos stored newest first, with `page` 2 and
`limit` 10 at line 46, sorted by `createdAt` ascending: the answer is the 11th
through 20th videos in order of creation. -/
theorem getAllVideos_window_witness :
    (1 ≤ 2 ∧ 1 ≤ 10 ∧ 2 * 10 < 2 ^ 53 ∧ "createdAt" ∈ ["title", "createdAt", "updatedAt"] ∧
      ((1 : Int) = 1 ∨ (1 : Int) = -1)) ∧
    getAllVideos.run catalog25.reverse []
        ⟨.num (.fin 2 0), .num (.fin 10 0), .null, "", "createdAt", 1⟩ =
      .json 200 (((List.range 10).map (fun i => sampleVideo (10 + i))).map (lookupOwner []))
        "Successfully send videos" := by
  refine ⟨⟨by decide, by decide, by norm_num, by decide, Or.inl rfl⟩, ?_⟩
  have h := (getAllVideos_window catalog25.reverse [] 2 10 .null "" "createdAt" 1
    (by decide) (by decide) (by norm_num) (by decide) (Or.inl rfl)).2.2.2.2
  exact h.trans (by decide)

/-! ### Publishing -/

theorem given_iff (f : Field) : f.given = true ↔ ¬ (f = none ∨ f = some "") := by
  cases f with
  | none => simp [Field.given]
  | some s => simp [Field.given]

theorem given_text {f : Field} (h : f.given = true) : f = some f.text ∧ f.text ≠ "" := by
  cases f with
  | none => simp [Field.given] at h
  | some s => simpa [Field.given, Field.text] using h

/-- C4: validation in `publishAVideo` is fail-fast in the order title, description,
files present, video/thumbnail pair: the first unmet precondition decides the 400
error, and the handler stops there, leaving the upload log and the catalog as they
were (no upload call, no catalog write). -/
theorem publishAVideo_failFast (cloud : Nat → String → Option CloudObj) (newId : String)
    (now : Nat) (w : World) (req : PublishRequest) (u : Unmet)
    (h : req.firstUnmet = some u) :
    publishAVideo cloud newId now w req = (.apiError 400 u.message, w) ∧
    (publishAVideo cloud newId now w req).2.uploads = w.uploads ∧
    (publishAVideo cloud newId now w req).2.videos = w.videos := by
  have key : publishAVideo cloud newId now w req = (.apiError 400 u.message, w) := by
    unfold PublishRequest.firstUnmet at h
    unfold publishAVideo
    by_cases ht : req.title = none ∨ req.title = some ""
    · have hg : req.title.given = false := by
        cases hgt : req.title.given
        · rfl
        · exact absurd ht ((given_iff _).mp hgt)
      rw [if_pos ht] at h
      cases h
      simp [hg, Unmet.message]
    · have hg : req.title.given = true := (given_iff _).mpr ht
      rw [if_neg ht] at h
      by_cases hd : req.description = none ∨ req.description = some ""
      · have hg' : req.description.given = false := by
          cases hgt : req.description.given
          · rfl
          · exact absurd hd ((given_iff _).mp hgt)
        rw [if_pos hd] at h
        cases h
        simp [hg, hg', Unmet.message]
      · have hg' : req.description.given = true := (given_iff _).mpr hd
        rw [if_neg hd] at h
        simp only [hg, hg', Bool.not_true, Bool.false_eq_true, if_false]
        cases hf : req.files with
        | none =>
          rw [hf] at h
          cases h
          rfl
        | some files =>
          rw [hf] at h
          simp only at h
          by_cases hm : firstStaged files.videoFile = none ∨ firstStaged files.thumbnail = none
          · rw [if_pos hm] at h
            cases h
            rcases hm with hm | hm
            · cases hth : firstStaged files.thumbnail <;> simp [hm, Unmet.message]
            · simp [hm, Unmet.message]
          · rw [if_neg hm] at h
            cases h
  rw [key]
  exact ⟨rfl, rfl, rfl⟩

/-- C4 at a request with a title, a description and a staged video file but no
thumbnail: the 400 error of the pair, nothing uploaded, nothing written. -/
theorem publishAVideo_failFast_witness :
    PublishRequest.firstUnmet
        ⟨some "T", some "D", some ⟨some [⟨"tmp/v.mp4"⟩], none⟩, "u1"⟩ = some .mediaPair ∧
    publishAVideo (fun _ p => some ⟨p, none⟩) "000000000000000000000025" 7 ⟨catalog25, ["old.png"]⟩
        ⟨some "T", some "D", some ⟨some [⟨"tmp/v.mp4"⟩], none⟩, "u1"⟩
      = (.apiError 400 "Thumbnail or video is missing", ⟨catalog25, ["old.png"]⟩) :=
  ⟨by decide,
    (publishAVideo_failFast (fun _ p => some ⟨p, none⟩) "000000000000000000000025" 7 ⟨catalog25, ["old.png"]⟩
      ⟨some "T", some "D", some ⟨some [⟨"tmp/v.mp4"⟩], none⟩, "u1"⟩ .mediaPair (by decide)).1⟩

/-- The shape of a request that passes validation. -/
theorem firstUnmet_none {req : PublishRequest} (h : req.firstUnmet = none) :
    req.title.given = true ∧ req.description.given = true ∧
    ∃ files v t, req.files = some files ∧ firstStaged files.videoFile = some v ∧
      firstStaged files.thumbnail = some t := by
  unfold PublishRequest.firstUnmet at h
  by_cases ht : req.title = none ∨ req.title = some ""
  · rw [if_pos ht] at h
    cases h
  · rw [if_neg ht] at h
    by_cases hd : req.description = none ∨ req.description = some ""
    · rw [if_pos hd] at h
      cases h
    · rw [if_neg hd] at h
      refine ⟨(given_iff _).mpr ht, (given_iff _).mpr hd, ?_⟩
      cases hf : req.files with
      | none =>
        rw [hf] at h
        cases h
      | some files =>
        rw [hf] at h
        simp only at h
        by_cases hm : firstStaged files.videoFile = none ∨ firstStaged files.thumbnail = none
        · rw [if_pos hm] at h
          cases h
        · cases hv : firstStaged files.videoFile with
          | none => exact absurd (Or.inl hv) hm
          | some v =>
            cases hth : firstStaged files.thumbnail with
            | none => exact absurd (Or.inr hth) hm
            | some t => exact ⟨files, v, t, rfl, hv, hth⟩

/-- What `publishAVideo` does once validation has passed: both uploads are made,
the video first, and the outcome depends on their results. -/
theorem publishAVideo_valid (cloud : Nat → String → Option CloudObj) (newId : String)
    (now : Nat) (w : World) (req : PublishRequest) (files : Files) (v t : StagedFile)
    (hval : req.firstUnmet = none) (hf : req.files = some files)
    (hv : firstStaged files.videoFile = some v) (ht : firstStaged files.thumbnail = some t) :
    publishAVideo cloud newId now w req =
      match cloud w.uploads.length v.path, cloud (w.uploads.length + 1) t.path with
      | some vc, some tc =>
          match Video.create newId now { w with uploads := w.uploads ++ [v.path, t.path] }
              { videoFile := vc.url, thumbnail := tc.url, title := req.title.text,
                description := req.description.text, duration := vc.duration,
                owner := req.user } with
          | .error e => (.rejected e, { w with uploads := w.uploads ++ [v.path, t.path] })
          | .ok (video, w₃) => (.json 201 video "Successfully uploaded video.", w₃)
      | _, _ =>
          (.apiError 500 "Failed to upload video or thumbnail to Cloudinary",
            { w with uploads := w.uploads ++ [v.path, t.path] }) := by
  obtain ⟨hgt, hgd, _⟩ := firstUnmet_none hval
  unfold publishAVideo
  simp only [hgt, hgd, Bool.not_true, Bool.false_eq_true, if_false, hf, hv, ht,
    uploadOnCloudinary, List.length_append, List.length_singleton, List.append_assoc,
    List.singleton_append]

/-- C5: when a publish request passes validation and the video upload or the
thumbnail upload returns a falsy result, `publishAVideo` throws the 500
upload-failure error and creates no entity: the catalog is what it was before the
request (both uploads have been attempted). -/
theorem publishAVideo_upload_failed (cloud : Nat → String → Option CloudObj) (newId : String)
    (now : Nat) (w : World) (req : PublishRequest) (files : Files) (v t : StagedFile)
    (hval : req.firstUnmet = none) (hf : req.files = some files)
    (hv : firstStaged files.videoFile = some v) (ht : firstStaged files.thumbnail = some t)
    (hfail : cloud w.uploads.length v.path = none ∨ cloud (w.uploads.length + 1) t.path = none) :
    publishAVideo cloud newId now w req =
      (.apiError 500 "Failed to upload video or thumbnail to Cloudinary",
        { w with uploads := w.uploads ++ [v.path, t.path] }) ∧
    (publishAVideo cloud newId now w req).2.videos = w.videos := by
  have key : publishAVideo cloud newId now w req =
      (.apiError 500 "Failed to upload video or thumbnail to Cloudinary",
        { w with uploads := w.uploads ++ [v.path, t.path] }) := by
    rw [publishAVideo_valid cloud newId now w req files v t hval hf hv ht]
    rcases hfail with h | h
    · rw [h]
    · rw [h]
      cases cloud w.uploads.length v.path <;> rfl
  rw [key]
  exact ⟨rfl, rfl⟩

/-- C5 at a valid request whose video upload succeeds and whose thumbnail upload
fails: the 500 error, and the 25 stored videos are untouched. -/
theorem publishAVideo_upload_failed_witness :
    PublishRequest.firstUnmet
        ⟨some "T", some "D", some ⟨some [⟨"tmp/v.mp4"⟩], some [⟨"tmp/t.png"⟩]⟩, "u1"⟩ = none ∧
    (publishAVideo (fun n p => if n = 0 then some ⟨p, some (.fin 125 (-1))⟩ else none) "000000000000000000000025" 7
        ⟨catalog25, []⟩
        ⟨some "T", some "D", some ⟨some [⟨"tmp/v.mp4"⟩], some [⟨"tmp/t.png"⟩]⟩, "u1"⟩).2.videos
      = catalog25 :=
  ⟨by decide,
    (publishAVideo_upload_failed
      (fun n p => if n = 0 then some ⟨p, some (.fin 125 (-1))⟩ else none) "000000000000000000000025" 7
      ⟨catalog25, []⟩
      ⟨some "T", some "D", some ⟨some [⟨"tmp/v.mp4"⟩], some [⟨"tmp/t.png"⟩]⟩, "u1"⟩
      ⟨some [⟨"tmp/v.mp4"⟩], some [⟨"tmp/t.png"⟩]⟩ ⟨"tmp/v.mp4"⟩ ⟨"tmp/t.png"⟩
      (by decide) rfl rfl rfl (Or.inr (by decide))).2⟩

/-- C6: when a publish request passes validation, both uploads succeed, the video
upload carries a duration and the new identifier is unused, `publishAVideo` creates
the entity and answers 201 with it: its `videoFile` is the locator of the video
upload, its `thumbnail` the locator of the thumbnail upload, its `duration` the
number the video upload reported, its title and description are the request's
(non-empty) ones and its owner is the requesting identity; the catalog gains exactly
this entity. -/
theorem publishAVideo_created (cloud : Nat → String → Option CloudObj) (newId : String)
    (now : Nat) (w : World) (req : PublishRequest) (files : Files) (v t : StagedFile)
    (vc tc : CloudObj) (d : JsNum)
    (hval : req.firstUnmet = none) (hf : req.files = some files)
    (hv : firstStaged files.videoFile = some v) (ht : firstStaged files.thumbnail = some t)
    (hvc : cloud w.uploads.length v.path = some vc)
    (htc : cloud (w.uploads.length + 1) t.path = some tc)
    (hd : vc.duration = some d) (hfresh : ∀ x ∈ w.videos, x.id ≠ newId) :
    ∃ video : Video,
      publishAVideo cloud newId now w req =
        (.json 201 video "Successfully uploaded video.",
          { videos := w.videos ++ [video], uploads := w.uploads ++ [v.path, t.path] }) ∧
      video.videoFile = vc.url ∧ video.thumbnail = tc.url ∧ video.duration = d ∧
      req.title = some video.title ∧ req.description = some video.description ∧
      video.title ≠ "" ∧ video.description ≠ "" ∧ video.owner = req.user := by
  obtain ⟨hgt, hgd, _⟩ := firstUnmet_none hval
  obtain ⟨htt, htn⟩ := given_text hgt
  obtain ⟨hdt, hdn⟩ := given_text hgd
  have hany : (w.videos.any fun x => x.id == newId) = false := by
    rw [List.any_eq_false]
    intro x hx
    simpa using hfresh x hx
  refine ⟨{ id := newId, videoFile := vc.url, thumbnail := tc.url, title := req.title.text,
            description := req.description.text, duration := d, owner := req.user,
            createdAt := now, updatedAt := now }, ?_, rfl, rfl, rfl, htt, hdt, htn, hdn, rfl⟩
  rw [publishAVideo_valid cloud newId now w req files v t hval hf hv ht, hvc, htc]
  simp [Video.create, hd, htn, hdn, hany]

/-- C6 at the request with title "T", description "D" and two staged files, both
uploads succeeding. -/
theorem publishAVideo_created_witness :
    PublishRequest.firstUnmet
        ⟨some "T", some "D", some ⟨some [⟨"tmp/v.mp4"⟩], some [⟨"tmp/t.png"⟩]⟩, "u1"⟩ = none ∧
    (∀ x ∈ catalog25, x.id ≠ "000000000000000000000025") ∧
    ∃ video : Video,
      publishAVideo
          (fun n _ => if n = 0 then some ⟨"cdn/video", some (.fin 125 (-1))⟩
            else some ⟨"cdn/thumb", none⟩)
          "000000000000000000000025" 7 ⟨catalog25, []⟩
          ⟨some "T", some "D", some ⟨some [⟨"tmp/v.mp4"⟩], some [⟨"tmp/t.png"⟩]⟩, "u1"⟩ =
        (.json 201 video "Successfully uploaded video.",
          { videos := catalog25 ++ [video], uploads := [] ++ ["tmp/v.mp4", "tmp/t.png"] }) ∧
      video.videoFile = "cdn/video" ∧ video.thumbnail = "cdn/thumb" ∧
      video.duration = .fin 125 (-1) ∧
      some "T" = some video.title ∧ some "D" = some video.description ∧
      video.title ≠ "" ∧ video.description ≠ "" ∧ video.owner = "u1" :=
  ⟨by decide, by decide,
    publishAVideo_created
      (fun n _ => if n = 0 then some ⟨"cdn/video", some (.fin 125 (-1))⟩
        else some ⟨"cdn/thumb", none⟩)
      "000000000000000000000025" 7 ⟨catalog25, []⟩
      ⟨some "T", some "D", some ⟨some [⟨"tmp/v.mp4"⟩], some [⟨"tmp/t.png"⟩]⟩, "u1"⟩
      ⟨some [⟨"tmp/v.mp4"⟩], some [⟨"tmp/t.png"⟩]⟩ ⟨"tmp/v.mp4"⟩ ⟨"tmp/t.png"⟩
      ⟨"cdn/video", some (.fin 125 (-1))⟩ ⟨"cdn/thumb", none⟩ (.fin 125 (-1))
      (by decide) rfl rfl rfl rfl rfl rfl (by decide)⟩

/-! ### Updating -/

theorem find_first (id : String) (pre post : List Video) (old : Video) (hid : old.id = id)
    (hpre : ∀ x ∈ pre, x.id ≠ id) :
    (pre ++ old :: post).find? (fun v => v.id == id) = some old := by
  induction pre with
  | nil => simp [hid]
  | cons x xs ih =>
    have hx : x.id ≠ id := hpre x (List.mem_cons_self _ _)
    have hx' : (x.id == id) = false := by simpa using hx
    simp only [List.cons_append, List.find?_cons, hx']
    exact ih (fun y hy => hpre y (List.mem_cons_of_mem _ hy))

theorem updateFirst_first (id : String) (now : Nat) (u : UpdatableFields)
    (pre post : List Video) (old : Video) (hid : old.id = id) (hpre : ∀ x ∈ pre, x.id ≠ id) :
    updateFirst id now u (pre ++ old :: post) = pre ++ old.apply now u :: post := by
  induction pre with
  | nil => simp [updateFirst, hid]
  | cons x xs ih =>
    have hx : x.id ≠ id := hpre x (List.mem_cons_self _ _)
    have ih' := ih (fun y hy => hpre y (List.mem_cons_of_mem _ hy))
    show updateFirst id now u (x :: (xs ++ old :: post)) = x :: (xs ++ old.apply now u :: post)
    rw [updateFirst, if_neg hx, ih']

/-- C7, as the claim states it, fails: an update at time 99 of the second of three
stored videos sets its title, description and thumbnail and also its `updatedAt`
(from 2 to 99), so the catalog is not the old one with exactly those three fields
of that video replaced. -/
theorem updateVideoDetails_sets_updatedAt :
    (updateVideoDetails (fun _ _ => some ⟨"cdn/new-thumb", none⟩) 99
        ⟨[sampleVideo 0, sampleVideo 1, sampleVideo 2], []⟩
        ⟨"000000000000000000000001", some "New", some "Text", some ⟨"tmp/n.png"⟩⟩).2.videos
      = [sampleVideo 0,
          { sampleVideo 1 with title := "New", description := "Text",
                               thumbnail := "cdn/new-thumb", updatedAt := 99 },
          sampleVideo 2] ∧
    (updateVideoDetails (fun _ _ => some ⟨"cdn/new-thumb", none⟩) 99
        ⟨[sampleVideo 0, sampleVideo 1, sampleVideo 2], []⟩
        ⟨"000000000000000000000001", some "New", some "Text", some ⟨"tmp/n.png"⟩⟩).2.videos
      ≠ [sampleVideo 0,
          { sampleVideo 1 with title := "New", description := "Text",
                               thumbnail := "cdn/new-thumb" },
          sampleVideo 2] :=
  ⟨by decide, by decide⟩

/-- C7, as the code has it: when an update request names a stored video by a
well-formed identifier, has a non-empty title and description and a staged
thumbnail, and the thumbnail upload succeeds, `updateVideoDetails` sets the title,
the description and the thumbnail of that video (to the request's title and
description and the uploaded locator) and, with them, its system-maintained
`updatedAt` (to the time of the update); its identifier, `videoFile`, `duration`,
owner and `createdAt` are unchanged, and every other video of the catalog is
unchanged.  The response carries the video as it was before the update. -/
theorem updateVideoDetails_frame (cloud : Nat → String → Option CloudObj) (now : Nat)
    (w : World) (req : UpdateRequest) (f : StagedFile) (tc : CloudObj)
    (title description : String) (pre post : List Video) (old : Video)
    (hfile : req.file = some f)
    (htitle : req.title = some title) (ht : title ≠ "")
    (hdesc : req.description = some description) (hd : description ≠ "")
    (hup : cloud w.uploads.length f.path = some tc)
    (hoid : isObjectIdString req.videoId = true)
    (hcat : w.videos = pre ++ old :: post) (hid : old.id = canonicalId req.videoId)
    (hpre : ∀ x ∈ pre, x.id ≠ canonicalId req.videoId) :
    updateVideoDetails cloud now w req =
      (.json 200 old "Successfully updated video",
        { videos := pre ++
            { old with title := title, description := description, thumbnail := tc.url,
                       updatedAt := now } :: post
          uploads := w.uploads ++ [f.path] }) := by
  have hgt : req.title.given = true := by simp [htitle, Field.given, ht]
  have hgd : req.description.given = true := by simp [hdesc, Field.given, hd]
  unfold updateVideoDetails
  simp only [hfile, hgt, hgd, Bool.not_true, Bool.or_self, Bool.false_eq_true, if_false,
    uploadOnCloudinary, hup, Video.findByIdAndUpdate, hoid, hcat,
    find_first (canonicalId req.videoId) pre post old hid hpre,
    updateFirst_first (canonicalId req.videoId) now _ pre post old hid hpre]
  simp [Video.apply, htitle, hdesc, Field.text]

/-- The amended C7 on a catalog of three videos, updating the second at time 99. -/
theorem updateVideoDetails_frame_witness :
    (("New" : String) ≠ "" ∧ ("Text" : String) ≠ "" ∧
      isObjectIdString "000000000000000000000001" = true ∧
      (sampleVideo 1).id = canonicalId "000000000000000000000001" ∧
      ∀ x ∈ [sampleVideo 0], x.id ≠ canonicalId "000000000000000000000001") ∧
    updateVideoDetails (fun _ _ => some ⟨"cdn/new-thumb", none⟩) 99
        ⟨[sampleVideo 0] ++ sampleVideo 1 :: [sampleVideo 2], []⟩
        ⟨"000000000000000000000001", some "New", some "Text", some ⟨"tmp/n.png"⟩⟩ =
      (.json 200 (sampleVideo 1) "Successfully updated video",
        { videos := [sampleVideo 0] ++
            { sampleVideo 1 with title := "New", description := "Text",
                                 thumbnail := "cdn/new-thumb", updatedAt := 99 } ::
              [sampleVideo 2]
          uploads := [] ++ ["tmp/n.png"] }) :=
  ⟨⟨by decide, by decide, by decide, by decide, by decide⟩,
    updateVideoDetails_frame (fun _ _ => some ⟨"cdn/new-thumb", none⟩) 99
      ⟨[sampleVideo 0] ++ sampleVideo 1 :: [sampleVideo 2], []⟩
      ⟨"000000000000000000000001", some "New", some "Text", some ⟨"tmp/n.png"⟩⟩ ⟨"tmp/n.png"⟩
      ⟨"cdn/new-thumb", none⟩ "New" "Text" [sampleVideo 0] [sampleVideo 2] (sampleVideo 1)
      rfl rfl (by decide) rfl (by decide) rfl (by decide) rfl (by decide) (by decide)⟩

end VideoController
